import Mathlib

/-!
Verification of the TradeTracker market-prediction core.

Shallow embedding of the relevant Python source files:
  - backend/routes/market_prediction.py (sentiment batching, stacking fusion,
    prediction cache, orchestration);
  - backend/routes/ml_models.py (ensemble weighted sum);
  - backend/routes/data_sources.py (whale transaction analysis);
  - backend/routes/technical_analysis.py (indicator engine, signal mapping);
  - backend/utils/cache.py (TTL cache with LRU eviction).

Machine floats are modelled as rationals; Python dicts carrying a fixed set
of fields are modelled as structures; fallible or effectful parts that the
claims quantify over (classifier availability, raised exceptions) are
explicit parameters.
-/

/-! ## Sentiment scorer (market_prediction.py, analyze_sentiment_with_finbert)

The FinBERT classifier itself is an external collaborator: a text is
represented by the verdict the classifier would give it, namely the label
with the highest probability together with that probability. The function
body then mirrors the source line by line: the model is fetched first (lazy
load is triggered unconditionally), a missing model short-circuits to the
fixed neutral fallback, otherwise the batch is truncated to 50 texts, each
item is scored with a signed confidence, and the breakdown percentages are
taken over the truncated batch. -/

inductive SentLabel where
  | negative
  | neutral
  | positive
deriving DecidableEq, Repr

/-- Signed per-item score: positive label gives +confidence, negative label
gives -confidence, neutral gives 0 (source lines 288-301). -/
def scoreOf : SentLabel × ℚ → ℚ
  | (SentLabel.positive, c) => 1 * c
  | (SentLabel.negative, c) => -1 * c
  | (SentLabel.neutral, _) => 0

/-- Count of items whose argmax label is `l` (the positive_count /
negative_count / neutral_count accumulators of the source). -/
def countLabel (l : SentLabel) (items : List (SentLabel × ℚ)) : ℕ :=
  items.countP (fun it => decide (it.1 = l))

structure SentBreakdown where
  positive_pct : ℚ
  negative_pct : ℚ
  neutral_pct : ℚ
deriving DecidableEq, Repr

/-- Observable outcome of one call to analyze_sentiment_with_finbert:
the returned pair plus the effects the claims mention (whether the lazy
model load was triggered, and how many texts went through inference). -/
structure SentOutcome where
  avg_sentiment : ℚ
  breakdown : SentBreakdown
  model_load_triggered : Bool
  scored_count : ℕ
deriving DecidableEq, Repr

/-- Embedding of analyze_sentiment_with_finbert (source lines 249-318).
`model_available` is whether get_sentiment_classifier returned a model; the
call to it is the first statement of the body, so the load is triggered on
every call, before the batch is even looked at. -/
def analyze_sentiment_with_finbert (model_available : Bool)
    (texts : List (SentLabel × ℚ)) : SentOutcome :=
  if model_available then
    let kept := texts.take 50
    let scores := kept.map scoreOf
    let positive_count := countLabel SentLabel.positive kept
    let negative_count := countLabel SentLabel.negative kept
    let neutral_count := countLabel SentLabel.neutral kept
    let avg_sentiment : ℚ := if scores.length ≠ 0 then scores.sum / scores.length else 0
    let total : ℕ := kept.length
    let breakdown : SentBreakdown :=
      if 0 < total then
        { positive_pct := (positive_count : ℚ) / total * 100
          negative_pct := (negative_count : ℚ) / total * 100
          neutral_pct := (neutral_count : ℚ) / total * 100 }
      else
        { positive_pct := 0, negative_pct := 0, neutral_pct := 0 }
    { avg_sentiment := avg_sentiment
      breakdown := breakdown
      model_load_triggered := true
      scored_count := kept.length }
  else
    { avg_sentiment := 0
      breakdown := { positive_pct := 33, negative_pct := 33, neutral_pct := 34 }
      model_load_triggered := true
      scored_count := 0 }

/-- Sum of the three breakdown percentages. -/
def pctSum (b : SentBreakdown) : ℚ := b.positive_pct + b.negative_pct + b.neutral_pct

/-! ## Whale transaction analysis (data_sources.py, _analyze_whale_transactions) -/

structure WhaleTx where
  amount_usd : ℚ
  from_owner : String
  to_owner : String
deriving DecidableEq, Repr

inductive WhaleSentiment where
  | accumulating
  | distributing
  | neutral
deriving DecidableEq, Repr

structure WhaleSummary where
  large_transfers : List WhaleTx
  exchange_inflows : ℚ
  exchange_outflows : ℚ
  net_flow : ℚ
  whale_sentiment : WhaleSentiment
  total_transactions : ℕ
deriving DecidableEq, Repr

/-- Sum of amount_usd over transactions whose receiving owner_type is
"exchange" (the exchange_inflows accumulator, source lines 334-335). -/
def exchangeInflows (transactions : List WhaleTx) : ℚ :=
  transactions.foldl
    (fun acc tx => if tx.to_owner = "exchange" then acc + tx.amount_usd else acc) 0

/-- Sum of amount_usd over transactions whose sending owner_type is
"exchange" (the exchange_outflows accumulator, source lines 336-337). -/
def exchangeOutflows (transactions : List WhaleTx) : ℚ :=
  transactions.foldl
    (fun acc tx => if tx.from_owner = "exchange" then acc + tx.amount_usd else acc) 0

/-- Sentiment mapping applied to the computed net flow (source lines 341-347):
strict comparison against plus and minus ten million. -/
def whaleSentimentOfNetFlow (net_flow : ℚ) : WhaleSentiment :=
  if net_flow > 10000000 then WhaleSentiment.accumulating
  else if net_flow < -10000000 then WhaleSentiment.distributing
  else WhaleSentiment.neutral

/-- Embedding of _analyze_whale_transactions (source lines 314-356):
net_flow = outflows - inflows, sentiment by strict ±$10M thresholds,
large_transfers truncated to the first 10. -/
def analyze_whale_transactions (transactions : List WhaleTx) : WhaleSummary :=
  let exchange_inflows := exchangeInflows transactions
  let exchange_outflows := exchangeOutflows transactions
  let net_flow := exchange_outflows - exchange_inflows
  { large_transfers := transactions.take 10
    exchange_inflows := exchange_inflows
    exchange_outflows := exchange_outflows
    net_flow := net_flow
    whale_sentiment := whaleSentimentOfNetFlow net_flow
    total_transactions := transactions.length }

/-! ## Technical indicator engine (technical_analysis.py)

calculate_all_indicators guards the whole computation with a try/except and
an up-front length check; everything between the check and the return is
third-party numerics (pandas and the ta library). The embedding therefore
takes the series length and an `Option` holding the result the guarded body
would produce, with `none` standing for a raised exception. -/

structure TechnicalIndicators where
  sma_20 : ℚ
  sma_50 : ℚ
  ema_12 : ℚ
  macd : ℚ
  rsi : ℚ
  stoch : ℚ
  bb_upper : ℚ
  bb_lower : ℚ
  bb_width : ℚ
  atr : ℚ
  volatility : ℚ
  obv : ℚ
  vwap : ℚ
  returns_1d : ℚ
  returns_7d : ℚ
  trend_signal : String
  momentum_signal : String
  volatility_signal : String
  volume_signal : String
  overall_signal : String
  signal_strength : ℚ
  mock : Bool
deriving DecidableEq, Repr

/-- Embedding of _get_mock_indicators (source lines 174-186): the fixed
degraded indicator set with every signal at its neutral value. -/
def get_mock_indicators : TechnicalIndicators :=
  { sma_20 := 0, sma_50 := 0, ema_12 := 0, macd := 0
    rsi := 50, stoch := 50
    bb_upper := 0, bb_lower := 0, bb_width := 0, atr := 0, volatility := 0
    obv := 0, vwap := 0
    returns_1d := 0, returns_7d := 0
    trend_signal := "neutral", momentum_signal := "neutral"
    volatility_signal := "normal", volume_signal := "neutral"
    overall_signal := "neutral", signal_strength := 1/2
    mock := true }

/-- Embedding of calculate_all_indicators (source lines 18-105):
`series_length` is the number of OHLC rows, `computed` is what the guarded
indicator computation would return, with `none` standing for an exception
raised anywhere in the try block. A total Lean function: the source never
lets an exception escape to the caller. -/
def calculate_all_indicators (series_length : ℕ)
    (computed : Option TechnicalIndicators) : TechnicalIndicators :=
  if series_length < 20 then get_mock_indicators
  else
    match computed with
    | some indicators => indicators
    | none => get_mock_indicators

/-- Embedding of the final signal mapping of _generate_signals (source lines
158-171): the overall signal label and signal_strength as a function of the
accumulated signal_score; the defaults ("neutral", 0.5) survive when no
branch fires. -/
def generate_overall_signal (signal_score : ℚ) : String × ℚ :=
  if signal_score > 1 then
    ("strong_bullish", min (9/10) (1/2 + signal_score * (1/10)))
  else if signal_score > 0 then
    ("bullish", 1/2 + signal_score * (1/10))
  else if signal_score < -1 then
    ("strong_bearish", max (1/10) (1/2 + signal_score * (1/10)))
  else if signal_score < 0 then
    ("bearish", 1/2 + signal_score * (1/10))
  else
    ("neutral", 1/2)

/-- Clamp x into the closed interval between lo and hi. -/
def clampQ (x lo hi : ℚ) : ℚ := max lo (min hi x)

/-- Label thresholds exactly as the spec states them, for comparison with
the source mapping: strong_bullish above 1, bullish on (0,1], strong_bearish
below -1, bearish on [-1,0), neutral otherwise. -/
def specOverallLabel (signal_score : ℚ) : String :=
  if signal_score > 1 then "strong_bullish"
  else if 0 < signal_score ∧ signal_score ≤ 1 then "bullish"
  else if signal_score < -1 then "strong_bearish"
  else if -1 ≤ signal_score ∧ signal_score < 0 then "bearish"
  else "neutral"

/-! ## Ensemble weighted sum (ml_models.py, EnsemblePredictor.predict)

On the trained path the source collects per-model scalar predictions in a
dict keyed by model name (gru only when a sequence is supplied and the model
loaded, xgboost and random_forest when their models loaded, sentiment
always) and sums prediction * weight over the models present; a model absent
from the dict is simply skipped. -/

structure ModelOutputs where
  gru : Option ℚ
  xgboost : Option ℚ
  random_forest : Option ℚ
  sentiment : ℚ
deriving DecidableEq, Repr

/-- Contribution of one model to the ensemble sum: prediction * weight when
the model produced an output, nothing when it is absent (the
`if model in predictions` filter of source lines 248-252). -/
def ensembleContribution : Option ℚ → ℚ → ℚ
  | some prediction, weight => prediction * weight
  | none, _ => 0

/-- Embedding of the weighted ensemble sum (source lines 247-252) with the
fixed weights of EnsemblePredictor.__init__: gru 0.35, xgboost 0.30,
random_forest 0.20, sentiment 0.15. -/
def ensemble_weighted_sum (outputs : ModelOutputs) : ℚ :=
  ensembleContribution outputs.gru (35/100) +
    ensembleContribution outputs.xgboost (30/100) +
    ensembleContribution outputs.random_forest (20/100) +
    outputs.sentiment * (15/100)

/-- Total weight of the models that produced an output (sentiment always
contributes). -/
def ensembleContributingWeight (outputs : ModelOutputs) : ℚ :=
  (if outputs.gru.isSome then (35:ℚ)/100 else 0) +
    (if outputs.xgboost.isSome then (30:ℚ)/100 else 0) +
    (if outputs.random_forest.isSome then (20:ℚ)/100 else 0) +
    15/100

/-- Ensemble score as the claim states it, for comparison with the source
sum: the weighted sum with the weights renormalized over the contributing
subset, that is, divided by the sum of the contributing weights. -/
def ensemble_weighted_sum_renormalized (outputs : ModelOutputs) : ℚ :=
  ensemble_weighted_sum outputs / ensembleContributingWeight outputs

/-! ## Stacking fusion (market_prediction.py, determine_prediction_with_stacking)

The six base signals are built in the fixed source order. The technical
signal is mapped through lowercased Python substring tests, reproduced
character for character: the probes "strong bullish" and "strong bearish"
are written with a space, while the overall_signal values produced by the
indicator engine use an underscore, so the strong labels fall through to the
plain bullish and bearish branches. -/

/-- Whether the first list is a prefix of the second, by character equality. -/
def startsWithChars : List Char → List Char → Bool
  | [], _ => true
  | _ :: _, [] => false
  | a :: as, b :: bs => a == b && startsWithChars as bs

/-- Whether the needle occurs contiguously inside the haystack (the Python
`in` operator over strings). -/
def containsChars (needle : List Char) : List Char → Bool
  | [] => startsWithChars needle []
  | c :: rest => startsWithChars needle (c :: rest) || containsChars needle rest

/-- Lowercased character sequence of a string (Python str.lower on the
ASCII labels used here). -/
def lowerChars (s : String) : List Char := s.toList.map Char.toLower

/-- Python `needle in hay` over strings. -/
def pyContains (needle : String) (hay : List Char) : Bool :=
  containsChars needle.toList hay

/-- Numeric value of the technical overall_signal (source lines 453-464):
substring tests against the lowercased label, in source order. -/
def techSignalScore (tech_signal : String) : ℚ :=
  let low := lowerChars tech_signal
  if pyContains "strong bullish" low then 1
  else if pyContains "bullish" low then 1/2
  else if pyContains "strong bearish" low then -1
  else if pyContains "bearish" low then -(1/2)
  else 0

/-- Numeric value of the whale sentiment label (source lines 466-473). -/
def whaleSignalScore (whale_sentiment : String) : ℚ :=
  if whale_sentiment = "accumulating" then 4/5
  else if whale_sentiment = "distributing" then -(4/5)
  else 0

/-- Inputs of determine_prediction_with_stacking, one field per dict lookup
the source performs (with the source's defaults applied upstream). -/
structure StackingInput where
  ml_prediction : ℚ
  ml_confidence : ℚ
  combined_sentiment : ℚ
  overall_signal : String
  whale_sentiment : String
  bollinger_position : ℚ
  stochastic_k : ℚ
deriving DecidableEq, Repr

/-- The six base predictions in source order (lines 441-484): ml score times
ml confidence, sentiment, technical signal, whale signal, Bollinger position
remapped to [-1,1] at half weight, stochastic K remapped to [-1,1] at 0.3
weight. -/
def basePredictions (i : StackingInput) : List ℚ :=
  [ i.ml_prediction * i.ml_confidence,
    i.combined_sentiment,
    techSignalScore i.overall_signal,
    whaleSignalScore i.whale_sentiment,
    ((i.bollinger_position - 1/2) * 2) * (1/2),
    ((i.stochastic_k - 50) / 50) * (3/10) ]

/-- The fixed meta-learner weights (source line 489), summing to 1. -/
def stackingWeights : List ℚ := [35/100, 25/100, 20/100, 10/100, 5/100, 5/100]

/-- Weighted meta-prediction: sum of prediction * weight over the zipped
lists (source line 492). -/
def metaScore (i : StackingInput) : ℚ :=
  (List.zipWith (fun pred weight => pred * weight) (basePredictions i) stackingWeights).sum

/-- Integer sign as numpy returns it: 1 for positive, -1 for negative,
0 for zero. -/
def signQ (x : ℚ) : ℤ :=
  if 0 < x then 1 else if x < 0 then -1 else 0

/-- Number of base predictions whose sign agrees with the meta score's sign
(source line 495). -/
def agreementCount (i : StackingInput) : ℕ :=
  (basePredictions i).countP (fun pred => signQ pred == signQ (metaScore i))

/-- Embedding of determine_prediction_with_stacking (source lines 429-520):
agreement-based confidence, then the threshold ladder on meta_score with the
per-branch confidence adjustments. A pure function of its input structure. -/
def determine_prediction_with_stacking (i : StackingInput) : String × ℚ :=
  let meta := metaScore i
  let confidence_base : ℚ := (agreementCount i : ℚ) / ((basePredictions i).length : ℚ)
  let confidence : ℚ := min (95/100) (confidence_base * (1 + |meta| * (3/10)))
  if meta > 3/5 then ("Strong Bullish", min (95/100) (confidence * (11/10)))
  else if meta > 1/5 then ("Bullish", min (85/100) confidence)
  else if meta < -(3/5) then ("Strong Bearish", min (95/100) (confidence * (11/10)))
  else if meta < -(1/5) then ("Bearish", min (85/100) confidence)
  else ("Neutral", max (1/2) (min (3/4) confidence))

/-- Concrete fusion input exhibiting a confidence below 0.5 outside the
Neutral branch: a large ml score with every other signal bearish gives a
meta score of 151/200 with only one agreeing signal. -/
def lowAgreementInput : StackingInput :=
  { ml_prediction := 7
    ml_confidence := 1/2
    combined_sentiment := -1
    overall_signal := "strong_bearish"
    whale_sentiment := "distributing"
    bollinger_position := 0
    stochastic_k := 0 }

/-- Concrete fusion input used to witness determinism at a sample point. -/
def sampleFusionInput : StackingInput :=
  { ml_prediction := 3
    ml_confidence := 4/5
    combined_sentiment := 1/2
    overall_signal := "strong_bullish"
    whale_sentiment := "accumulating"
    bollinger_position := 9/10
    stochastic_k := 80 }

/-! ## Prediction cache and orchestration (market_prediction.py)

The module-level cache is a pair of a payload and a timestamp; CACHE_TTL is
900 seconds. enhanced_market_prediction checks the cache before anything
else; on a miss it performs the four parallel source fetches plus the
historical-data fetch, computes a fresh response, and writes it to the
cache. The fresh computation itself is opaque here: the claim is about the
cache short-circuit, so the fresh response is a parameter and the number of
outbound fetches is part of the outcome. -/

def CACHE_TTL : ℚ := 900

structure PredictionCache (α : Type) where
  data : Option α
  timestamp : ℚ
deriving DecidableEq, Repr

/-- Embedding of get_cached_prediction (source lines 561-566): the stored
payload, provided one exists and is younger than CACHE_TTL. -/
def get_cached_prediction (cache : PredictionCache α) (current_time : ℚ) : Option α :=
  match cache.data with
  | some payload =>
      if current_time - cache.timestamp < CACHE_TTL then some payload else none
  | none => none

/-- Embedding of cache_prediction (source lines 569-572). -/
def cache_prediction (cache : PredictionCache α) (payload : α)
    (current_time : ℚ) : PredictionCache α :=
  { data := some payload, timestamp := current_time }

/-- Outcome of one orchestration call: the returned payload, how many
outbound fetches were performed, and the cache state afterwards. -/
structure CycleOutcome (α : Type) where
  response : α
  outbound_fetches : ℕ
  cache_after : PredictionCache α
deriving DecidableEq, Repr

/-- Embedding of the orchestration skeleton of enhanced_market_prediction
(source lines 624-828): the cache is consulted first and a hit returns the
stored payload with no fetch and no cache write; a miss performs the four
gathered source fetches plus the historical fetch, then caches and returns
the freshly computed response. -/
def enhanced_market_prediction (cache : PredictionCache α) (current_time : ℚ)
    (fresh_response : α) : CycleOutcome α :=
  match get_cached_prediction cache current_time with
  | some payload =>
      { response := payload, outbound_fetches := 0, cache_after := cache }
  | none =>
      { response := fresh_response
        outbound_fetches := 5
        cache_after := cache_prediction cache fresh_response current_time }

/-! ## TTL cache (utils/cache.py, TTLCache)

The OrderedDict is modelled as a list of entries, front first: the front is
the least recently used entry (popitem with last=False removes it), and both
a fresh set and a get move the touched key to the back. Every public
operation runs under the instance lock, so a reachable state is exactly a
fold of operations from the empty cache. -/

structure CacheEntry (α : Type) where
  key : String
  value : α
  expiry : ℚ
deriving DecidableEq, Repr

/-- Removal of a key from the ordered entries (del self._cache[key]). -/
def cacheErase (key : String) (entries : List (CacheEntry α)) : List (CacheEntry α) :=
  entries.filter (fun e => !(e.key == key))

/-- The while-loop of TTLCache.set (source lines 92-94): pop the front
(oldest, least recently used) entry until the size is within max_size. -/
def evictOldest (max_size : ℕ) : List (CacheEntry α) → List (CacheEntry α)
  | [] => []
  | e :: rest =>
      if max_size < (e :: rest).length then evictOldest max_size rest
      else e :: rest

/-- Embedding of TTLCache.get (source lines 38-67): a missing key returns
none; an expired entry is deleted; a live entry is moved to the back and
returned. -/
def cacheGet (key : String) (now : ℚ) (entries : List (CacheEntry α)) :
    Option α × List (CacheEntry α) :=
  match entries.find? (fun e => e.key == key) with
  | none => (none, entries)
  | some e =>
      if now > e.expiry then (none, cacheErase key entries)
      else (some e.value, cacheErase key entries ++ [e])

/-- Embedding of TTLCache.set (source lines 69-94): drop any existing entry
for the key, append the new entry at the back, then evict from the front
while over capacity. -/
def cacheSet (key : String) (value : α) (expiry : ℚ) (max_size : ℕ)
    (entries : List (CacheEntry α)) : List (CacheEntry α) :=
  evictOldest max_size (cacheErase key entries ++ [{ key := key, value := value, expiry := expiry }])

/-- Embedding of TTLCache.cleanup_expired (source lines 121-139): drop every
entry whose expiry lies strictly in the past. -/
def cacheCleanup (now : ℚ) (entries : List (CacheEntry α)) : List (CacheEntry α) :=
  entries.filter (fun e => !(decide (now > e.expiry)))

/-- One public TTLCache operation (get, set with its computed expiry, delete,
clear, cleanup_expired). -/
inductive CacheOp (α : Type) where
  | get (key : String) (now : ℚ)
  | set (key : String) (value : α) (expiry : ℚ)
  | delete (key : String)
  | clear
  | cleanup (now : ℚ)

/-- Effect of one operation on the ordered entries. -/
def applyCacheOp (max_size : ℕ) (entries : List (CacheEntry α)) :
    CacheOp α → List (CacheEntry α)
  | CacheOp.get key now => (cacheGet key now entries).2
  | CacheOp.set key value expiry => cacheSet key value expiry max_size entries
  | CacheOp.delete key => cacheErase key entries
  | CacheOp.clear => []
  | CacheOp.cleanup now => cacheCleanup now entries

/-- State reached from the freshly constructed (empty) cache by a sequence
of public operations. -/
def runCacheOps (max_size : ℕ) (ops : List (CacheOp α)) : List (CacheEntry α) :=
  ops.foldl (applyCacheOp max_size) []

/-! ## Theorems for the stacking confidence range (C1) -/

lemma techSignalScore_strong_bearish_label : techSignalScore "strong_bearish" = -(1/2) := by
  unfold techSignalScore
  rw [if_neg (by decide), if_neg (by decide), if_neg (by decide), if_pos (by decide)]

lemma whaleSignalScore_distributing : whaleSignalScore "distributing" = -(4/5) := by
  unfold whaleSignalScore
  rw [if_neg (by decide), if_pos rfl]

lemma basePredictions_lowAgreement :
    basePredictions lowAgreementInput = [7/2, -1, -(1/2), -(4/5), -(1/2), -(3/10)] := by
  simp only [basePredictions, lowAgreementInput, techSignalScore_strong_bearish_label,
    whaleSignalScore_distributing]
  norm_num

lemma metaScore_lowAgreement : metaScore lowAgreementInput = 151/200 := by
  unfold metaScore
  rw [basePredictions_lowAgreement]
  simp only [stackingWeights, List.zipWith, List.sum_cons, List.sum_nil]
  norm_num

lemma agreementCount_lowAgreement : agreementCount lowAgreementInput = 1 := by
  unfold agreementCount
  rw [basePredictions_lowAgreement, metaScore_lowAgreement]
  have hmeta : signQ (151/200) = 1 := by unfold signQ; rw [if_pos (by norm_num)]
  have s1 : signQ (7/2) = 1 := by unfold signQ; rw [if_pos (by norm_num)]
  have s2 : signQ (-1 : ℚ) = -1 := by
    unfold signQ; rw [if_neg (by norm_num), if_pos (by norm_num)]
  have s3 : signQ (-(1/2) : ℚ) = -1 := by
    unfold signQ; rw [if_neg (by norm_num), if_pos (by norm_num)]
  have s4 : signQ (-(4/5) : ℚ) = -1 := by
    unfold signQ; rw [if_neg (by norm_num), if_pos (by norm_num)]
  have s5 : signQ (-(3/10) : ℚ) = -1 := by
    unfold signQ; rw [if_neg (by norm_num), if_pos (by norm_num)]
  simp only [List.countP_cons, List.countP_nil, hmeta, s1, s2, s3, s4, s5]
  decide

/-- C1 counterexample: at lowAgreementInput the fusion returns the label
Strong Bullish with a confidence strictly below 0.5, so the confidence does
not lie in [0.5, 0.95] for every input. -/
theorem stacking_confidence_below_half :
    (determine_prediction_with_stacking lowAgreementInput).1 = "Strong Bullish" ∧
      (determine_prediction_with_stacking lowAgreementInput).2 < 1/2 := by
  simp only [determine_prediction_with_stacking, metaScore_lowAgreement,
    agreementCount_lowAgreement, basePredictions_lowAgreement]
  rw [abs_of_pos (by norm_num : (0:ℚ) < 151/200)]
  rw [if_pos (by norm_num : (151:ℚ)/200 > 3/5)]
  constructor
  · rfl
  · simp only []
    rw [min_eq_right (by norm_num), min_eq_right (by norm_num)]
    norm_num

/-- C1 amended: for every fusion input the returned confidence lies in
[0, 0.95]; the original lower bound of 0.5 does not hold outside the Neutral
branch, as the counterexample shows. -/
theorem stacking_confidence_bounded (i : StackingInput) :
    0 ≤ (determine_prediction_with_stacking i).2 ∧
      (determine_prediction_with_stacking i).2 ≤ 95/100 := by
  have hc0 : (0:ℚ) ≤ min (95/100)
      ((agreementCount i : ℚ) / ((basePredictions i).length : ℚ)
        * (1 + |metaScore i| * (3/10))) := by
    refine le_min (by norm_num) ?_
    refine mul_nonneg (div_nonneg (Nat.cast_nonneg _) (Nat.cast_nonneg _)) ?_
    positivity
  simp only [determine_prediction_with_stacking]
  split_ifs with h1 h2 h3 h4
  · exact ⟨le_min (by norm_num) (mul_nonneg hc0 (by norm_num)), min_le_left _ _⟩
  · exact ⟨le_min (by norm_num) hc0, (min_le_left _ _).trans (by norm_num)⟩
  · exact ⟨le_min (by norm_num) (mul_nonneg hc0 (by norm_num)), min_le_left _ _⟩
  · exact ⟨le_min (by norm_num) hc0, (min_le_left _ _).trans (by norm_num)⟩
  · exact ⟨le_trans (by norm_num) (le_max_left _ _),
      max_le (by norm_num) ((min_le_left _ _).trans (by norm_num))⟩

/-! ## Theorems for the sentiment scorer on the empty batch (C2) -/

/-- C2 counterexample: on the empty batch with the classifier available, the
breakdown returned is {0, 0, 0}, not {33, 33, 34}, and the lazy model load is
triggered (the classifier is fetched before the batch length is examined), so
the claim fails on both counts. -/
theorem sentiment_empty_batch_counterexample :
    (analyze_sentiment_with_finbert true ([] : List (SentLabel × ℚ))).breakdown ≠
        { positive_pct := 33, negative_pct := 33, neutral_pct := 34 } ∧
    (analyze_sentiment_with_finbert true ([] : List (SentLabel × ℚ))).model_load_triggered
        = true := by
  decide

/-- C2 amended: for the empty batch the average score is 0.0 and no text is
scored, but the model load is still triggered on every call; the breakdown is
{0, 0, 0} when the classifier is available and {33, 33, 34} only when loading
it failed. -/
theorem sentiment_empty_batch_behavior (model_available : Bool) :
    (analyze_sentiment_with_finbert model_available []).avg_sentiment = 0 ∧
    (analyze_sentiment_with_finbert model_available []).scored_count = 0 ∧
    (analyze_sentiment_with_finbert model_available []).model_load_triggered = true ∧
    (analyze_sentiment_with_finbert model_available []).breakdown =
      (if model_available then { positive_pct := 0, negative_pct := 0, neutral_pct := 0 }
       else { positive_pct := 33, negative_pct := 33, neutral_pct := 34 }) := by
  cases model_available <;> decide

/-! ## Theorems for the ensemble weighted sum (C3) -/

/-- C3 counterexample: with the sequence model missing and the other three
contributors present (xgboost 0, random_forest 0, sentiment 2/5), the source
sum is 3/50 while the renormalized sum the claim states is 6/65, so the
weights are not renormalized over the contributing subset. -/
theorem ensemble_renormalization_counterexample :
    ensemble_weighted_sum
        { gru := none, xgboost := some 0, random_forest := some 0, sentiment := 2/5 } ≠
      ensemble_weighted_sum_renormalized
        { gru := none, xgboost := some 0, random_forest := some 0, sentiment := 2/5 } := by
  unfold ensemble_weighted_sum_renormalized ensemble_weighted_sum ensembleContributingWeight
  simp only [ensembleContribution, Option.isSome]
  norm_num

/-- C3 amended: on any subset of contributing models the ensemble score is
the weighted sum with the fixed weights applied as-is; a missing contributor
simply contributes zero, and no division by the sum of the contributing
weights takes place. -/
theorem ensemble_weights_used_as_is (outputs : ModelOutputs) :
    ensemble_weighted_sum outputs =
      outputs.gru.getD 0 * (35/100) + outputs.xgboost.getD 0 * (30/100) +
        outputs.random_forest.getD 0 * (20/100) + outputs.sentiment * (15/100) := by
  obtain ⟨g, x, r, s⟩ := outputs
  cases g <;> cases x <;> cases r <;>
    simp [ensemble_weighted_sum, ensembleContribution]

/-! ## Theorem for the whale sentiment thresholds (C4) -/

/-- C4: whale_sentiment is accumulating exactly when net_flow exceeds +$10M
strictly, distributing exactly when net_flow is strictly below -$10M, and
neutral exactly on the closed interval between, so a net_flow of exactly
+$10,000,000 is classified neutral. -/
theorem whale_sentiment_strict_thresholds (transactions : List WhaleTx) :
    ((analyze_whale_transactions transactions).whale_sentiment = WhaleSentiment.accumulating ↔
        10000000 < (analyze_whale_transactions transactions).net_flow) ∧
    ((analyze_whale_transactions transactions).whale_sentiment = WhaleSentiment.distributing ↔
        (analyze_whale_transactions transactions).net_flow < -10000000) ∧
    ((analyze_whale_transactions transactions).whale_sentiment = WhaleSentiment.neutral ↔
        -10000000 ≤ (analyze_whale_transactions transactions).net_flow ∧
          (analyze_whale_transactions transactions).net_flow ≤ 10000000) := by
  have hs : (analyze_whale_transactions transactions).whale_sentiment
      = whaleSentimentOfNetFlow ((analyze_whale_transactions transactions).net_flow) := rfl
  rw [hs]
  generalize (analyze_whale_transactions transactions).net_flow = net
  unfold whaleSentimentOfNetFlow
  split_ifs with h1 h2
  · refine ⟨?_, ?_, ?_⟩
    · exact Iff.intro (fun _ => h1) (fun _ => rfl)
    · exact Iff.intro (fun h => nomatch h) (fun h => False.elim (by linarith))
    · exact Iff.intro (fun h => nomatch h) (fun h => False.elim (by linarith [h.2]))
  · refine ⟨?_, ?_, ?_⟩
    · exact Iff.intro (fun h => nomatch h) (fun h => False.elim (by linarith))
    · exact Iff.intro (fun _ => h2) (fun _ => rfl)
    · exact Iff.intro (fun h => nomatch h) (fun h => False.elim (by linarith [h.1]))
  · refine ⟨?_, ?_, ?_⟩
    · exact Iff.intro (fun h => nomatch h) (fun h => False.elim (h1 h))
    · exact Iff.intro (fun h => nomatch h) (fun h => False.elim (h2 h))
    · exact Iff.intro (fun _ => ⟨le_of_not_lt h2, le_of_not_lt h1⟩) (fun _ => rfl)

/-! ## Theorems for the prediction cache short-circuit (C5) -/

/-- C5: when the cache holds a payload stored less than CACHE_TTL (15
minutes) before the current time, the orchestration call returns exactly that
payload, performs zero outbound fetches, and leaves the cache untouched — the
cache check precedes every fetch and all model work. -/
theorem cached_prediction_short_circuits {α : Type} (cache : PredictionCache α)
    (current_time : ℚ) (fresh_response payload : α)
    (hdata : cache.data = some payload)
    (hage : current_time - cache.timestamp < CACHE_TTL) :
    enhanced_market_prediction cache current_time fresh_response =
      { response := payload, outbound_fetches := 0, cache_after := cache } := by
  have hget : get_cached_prediction cache current_time = some payload := by
    simp only [get_cached_prediction, hdata, if_pos hage]
  unfold enhanced_market_prediction
  rw [hget]

/-- Witness for C5 at a concrete cache state: payload 42 stored at time 0,
queried at time 10. -/
theorem cached_prediction_short_circuits_witness :
    enhanced_market_prediction { data := some (42:ℚ), timestamp := 0 } 10 (7:ℚ) =
      { response := 42, outbound_fetches := 0,
        cache_after := { data := some (42:ℚ), timestamp := 0 } } :=
  cached_prediction_short_circuits _ _ _ 42 rfl (by norm_num [CACHE_TTL])

/-! ## Theorems for the degraded indicator set (C6) -/

/-- C6: a series shorter than 20 points, or a computation that raises, makes
calculate_all_indicators return the fixed mock indicator set, which carries
mock = true, rsi = 50, every categorical signal at its neutral value and
signal_strength 0.5; the function is total, so nothing propagates to the
caller. -/
theorem short_series_or_exception_yields_mock (series_length : ℕ)
    (computed : Option TechnicalIndicators)
    (h : series_length < 20 ∨ computed = none) :
    calculate_all_indicators series_length computed = get_mock_indicators ∧
      get_mock_indicators.mock = true ∧
      get_mock_indicators.rsi = 50 ∧
      get_mock_indicators.trend_signal = "neutral" ∧
      get_mock_indicators.momentum_signal = "neutral" ∧
      get_mock_indicators.volatility_signal = "normal" ∧
      get_mock_indicators.volume_signal = "neutral" ∧
      get_mock_indicators.overall_signal = "neutral" ∧
      get_mock_indicators.signal_strength = 1/2 := by
  refine ⟨?_, rfl, rfl, rfl, rfl, rfl, rfl, rfl, rfl⟩
  unfold calculate_all_indicators
  rcases h with h | h
  · rw [if_pos h]
  · rw [h]
    split_ifs <;> rfl

/-- Witness for C6 at a concrete input: a 5-point series. -/
theorem short_series_or_exception_yields_mock_witness :
    calculate_all_indicators 5 (none : Option TechnicalIndicators) = get_mock_indicators :=
  (short_series_or_exception_yields_mock 5 none (Or.inl (by norm_num))).1

/-! ## Theorems for the truncation and breakdown of the sentiment scorer (C7) -/

lemma countLabel_total (items : List (SentLabel × ℚ)) :
    countLabel SentLabel.positive items + countLabel SentLabel.negative items +
      countLabel SentLabel.neutral items = items.length := by
  induction items with
  | nil => rfl
  | cons it rest ih =>
    obtain ⟨l, c⟩ := it
    cases l <;> simp [countLabel, List.countP_cons] at ih ⊢ <;> omega

/-- C7: with the classifier available, a batch longer than 50 is truncated to
its first 50 texts — exactly 50 go through inference and the positive
percentage is the positive count over those 50 — and for every non-empty
batch each scored item lands in exactly one label count, so the three
percentages sum to exactly 100. -/
theorem sentiment_truncation_and_breakdown_sum :
    (∀ texts : List (SentLabel × ℚ), 50 < texts.length →
        (analyze_sentiment_with_finbert true texts).scored_count = 50 ∧
        (analyze_sentiment_with_finbert true texts).breakdown.positive_pct =
          (countLabel SentLabel.positive (texts.take 50) : ℚ) / 50 * 100) ∧
    (∀ texts : List (SentLabel × ℚ), texts ≠ [] →
        pctSum (analyze_sentiment_with_finbert true texts).breakdown = 100) := by
  constructor
  · intro texts h
    have hlen : (texts.take 50).length = 50 := by
      rw [List.length_take]
      exact min_eq_left (le_of_lt h)
    constructor
    · simp only [analyze_sentiment_with_finbert, if_true]
      exact hlen
    · simp only [analyze_sentiment_with_finbert, if_true, hlen]
      norm_num
  · intro texts hne
    have hpos : 0 < (texts.take 50).length := by
      rw [List.length_take]
      exact lt_min (by norm_num) (List.length_pos.mpr hne)
    have hsum := countLabel_total (texts.take 50)
    simp only [analyze_sentiment_with_finbert, pctSum, if_true, if_pos hpos]
    have hTpos : (0 : ℚ) < ((texts.take 50).length : ℚ) := by exact_mod_cast hpos
    have hTne : ((texts.take 50).length : ℚ) ≠ 0 := ne_of_gt hTpos
    have hsumQ : (countLabel SentLabel.positive (texts.take 50) : ℚ) +
        (countLabel SentLabel.negative (texts.take 50) : ℚ) +
        (countLabel SentLabel.neutral (texts.take 50) : ℚ) =
        ((texts.take 50).length : ℚ) := by exact_mod_cast hsum
    have key : ∀ p n u T : ℚ, T ≠ 0 → p + n + u = T →
        p / T * 100 + n / T * 100 + u / T * 100 = 100 := by
      intro p n u T hT hpnu
      field_simp
      linarith
    exact key _ _ _ _ hTne hsumQ

/-! ## Theorems for the overall signal mapping (C8) -/

lemma overall_label_eq (signal_score : ℚ) :
    (generate_overall_signal signal_score).1 = specOverallLabel signal_score := by
  unfold generate_overall_signal specOverallLabel
  by_cases h1 : signal_score > 1
  · rw [if_pos h1, if_pos h1]
  · rw [if_neg h1, if_neg h1]
    by_cases h2 : signal_score > 0
    · have hc : 0 < signal_score ∧ signal_score ≤ 1 := ⟨h2, le_of_not_lt h1⟩
      rw [if_pos h2, if_pos hc]
    · have hc : ¬(0 < signal_score ∧ signal_score ≤ 1) := fun hx => h2 hx.1
      rw [if_neg h2, if_neg hc]
      by_cases h3 : signal_score < -1
      · rw [if_pos h3, if_pos h3]
      · rw [if_neg h3, if_neg h3]
        by_cases h4 : signal_score < 0
        · have hd : -1 ≤ signal_score ∧ signal_score < 0 := ⟨le_of_not_lt h3, h4⟩
          rw [if_pos h4, if_pos hd]
        · have hd : ¬(-1 ≤ signal_score ∧ signal_score < 0) := fun hx => h4 hx.2
          rw [if_neg h4, if_neg hd]

lemma overall_strength_eq (signal_score : ℚ) :
    (generate_overall_signal signal_score).2 =
      clampQ (1/2 + signal_score * (1/10)) (1/10) (9/10) := by
  unfold generate_overall_signal clampQ
  split_ifs with h1 h2 h3 h4
  · rw [max_eq_right (le_min (by norm_num) (by linarith))]
  · rw [min_eq_right (by linarith), max_eq_right (by linarith)]
  · rw [min_eq_right (by linarith)]
  · rw [min_eq_right (by linarith), max_eq_right (by linarith)]
  · have hz : signal_score = 0 := le_antisymm (le_of_not_lt h2) (le_of_not_lt h4)
    subst hz
    rw [show (1/2 + (0:ℚ) * (1/10)) = 1/2 by ring,
      min_eq_right (by norm_num), max_eq_right (by norm_num)]

/-- C8: the overall signal derived from the final signal_score is
strong_bullish above 1, bullish on (0,1], strong_bearish below -1, bearish on
[-1,0) and neutral otherwise, and the returned signal_strength equals
clamp(0.5 + 0.1 * signal_score, 0.1, 0.9) in every case (0.5 in the neutral
case). -/
theorem overall_signal_label_and_strength (signal_score : ℚ) :
    generate_overall_signal signal_score =
      (specOverallLabel signal_score,
        clampQ (1/2 + signal_score * (1/10)) (1/10) (9/10)) :=
  Prod.ext (overall_label_eq signal_score) (overall_strength_eq signal_score)

/-! ## Theorem for the purity and determinism of the fusion step (C9) -/

/-- C9: determine_prediction_with_stacking is embedded as a plain function
of its input structure — it reads nothing but its arguments and fixed
constants — so two invocations on equal inputs return the same label and the
same confidence. -/
theorem stacking_fusion_deterministic (a b : StackingInput) (h : a = b) :
    determine_prediction_with_stacking a = determine_prediction_with_stacking b :=
  congrArg determine_prediction_with_stacking h

/-- Witness for C9 at a concrete fusion input. -/
theorem stacking_fusion_deterministic_witness :
    determine_prediction_with_stacking sampleFusionInput =
      determine_prediction_with_stacking sampleFusionInput :=
  stacking_fusion_deterministic sampleFusionInput sampleFusionInput rfl

/-! ## Theorems for the TTL cache capacity invariant (C10) -/

lemma evictOldest_length_le {α : Type} (max_size : ℕ) (entries : List (CacheEntry α)) :
    (evictOldest max_size entries).length ≤ max_size := by
  induction entries with
  | nil => simp [evictOldest]
  | cons e rest ih =>
    rw [evictOldest]
    split_ifs with h
    · exact ih
    · exact le_of_not_lt h

lemma cacheErase_length_lt_of_find {α : Type} (key : String)
    (entries : List (CacheEntry α)) (e : CacheEntry α)
    (h : entries.find? (fun x => x.key == key) = some e) :
    (cacheErase key entries).length < entries.length := by
  induction entries with
  | nil => simp at h
  | cons a rest ih =>
    by_cases hp : a.key == key
    · simp only [cacheErase, List.filter_cons, hp, Bool.not_true, if_false, List.length_cons]
      exact Nat.lt_succ_of_le (List.length_filter_le _ _)
    · rw [List.find?_cons_of_neg _ (by simpa using hp)] at h
      have hb : (a.key == key) = false := by simpa using hp
      simp only [cacheErase, List.filter_cons, hb, Bool.not_false, if_true,
        List.length_cons] at ih ⊢
      exact Nat.succ_lt_succ (ih h)

lemma applyCacheOp_length {α : Type} (max_size : ℕ) (op : CacheOp α)
    (entries : List (CacheEntry α)) (h : entries.length ≤ max_size) :
    (applyCacheOp max_size entries op).length ≤ max_size := by
  cases op with
  | get key now =>
    simp only [applyCacheOp, cacheGet]
    cases hf : entries.find? (fun e => e.key == key) with
    | none => exact h
    | some e =>
      dsimp only
      split_ifs with hexp
      · exact le_trans (List.length_filter_le _ _) h
      · have hlt := cacheErase_length_lt_of_find key entries e hf
        simp only [List.length_append, List.length_cons, List.length_nil]
        omega
  | set key value expiry =>
    simp only [applyCacheOp, cacheSet]
    exact evictOldest_length_le _ _
  | delete key =>
    simp only [applyCacheOp, cacheErase]
    exact le_trans (List.length_filter_le _ _) h
  | clear =>
    simpa [applyCacheOp] using Nat.zero_le _
  | cleanup now =>
    simp only [applyCacheOp, cacheCleanup]
    exact le_trans (List.length_filter_le _ _) h

lemma foldl_cacheOps_length {α : Type} (max_size : ℕ) (ops : List (CacheOp α)) :
    ∀ init : List (CacheEntry α), init.length ≤ max_size →
      (ops.foldl (applyCacheOp max_size) init).length ≤ max_size := by
  induction ops with
  | nil => intro init h; simpa using h
  | cons op rest ih =>
    intro init h
    rw [List.foldl_cons]
    exact ih _ (applyCacheOp_length max_size op init h)

lemma evictOldest_eq_drop {α : Type} (max_size : ℕ) (entries : List (CacheEntry α)) :
    evictOldest max_size entries = entries.drop (entries.length - max_size) := by
  induction entries with
  | nil => simp [evictOldest]
  | cons e rest ih =>
    rw [evictOldest]
    split_ifs with h
    · rw [ih]
      have hstep : (e :: rest).length - max_size = (rest.length - max_size) + 1 := by
        simp only [List.length_cons] at h ⊢
        omega
      rw [hstep, List.drop_succ_cons]
    · have h0 : (e :: rest).length - max_size = 0 :=
        Nat.sub_eq_zero_of_le (le_of_not_lt h)
      rw [h0, List.drop_zero]

/-- C10: every state the TTL cache reaches from its empty initial state by
any sequence of get, set, delete, clear and cleanup operations holds at most
max_size entries, and the eviction loop of set removes exactly the front
(oldest, least recently used) entries: it drops the first length - max_size
of them and keeps the rest untouched. -/
theorem ttl_cache_capacity_and_lru_eviction {α : Type} (max_size : ℕ)
    (ops : List (CacheOp α)) :
    (runCacheOps max_size ops).length ≤ max_size ∧
      ∀ entries : List (CacheEntry α),
        evictOldest max_size entries = entries.drop (entries.length - max_size) := by
  constructor
  · exact foldl_cacheOps_length max_size ops [] (by simp)
  · exact evictOldest_eq_drop max_size
